import Mathlib

/-!
Verification of the core-dump-composer pipeline
(`src/core-dump-composer/src/main.rs`).

The program is a straight-line pipeline run on a worker thread under a
deadline supervisor.  We embed it as a pure function from the job
configuration (`CoreConfig`) and an environment oracle (`Env`, recording
the outcome of every external operation: file creations, writes, locks,
inspection-tool queries, directory operations) to a final `RunState`
(whether the destination archive was created and sealed, which entries
were appended into it, the scratch-directory contents, a log of every
successful staging write) together with an `Outcome` (an explicit
`process::exit` code, a normal `Ok`/`Err` return of the worker, or a
panic of the worker thread via an `unwrap`).
-/

/-- Model of `serde_json::Value` restricted to the shapes the pipeline
inspects: null, strings, objects (association lists with unique keys)
and arrays. -/
inductive Json where
  | null : Json
  | str (s : String) : Json
  | obj (fields : List (String × Json)) : Json
  | arr (elems : List Json) : Json

/-- Model of `value[key]` (serde `Index` for a string key): field lookup
on objects, `Null` on everything else and on a missing key. -/
def Json.index (j : Json) (key : String) : Json :=
  match j with
  | .obj fields =>
    match fields.lookup key with
    | some v => v
    | none => .null
  | _ => .null

/-- Model of `Value::as_str`. -/
def Json.asStr : Json → Option String
  | .str s => some s
  | _ => none

/-- Model of `Value::as_object`. -/
def Json.asObject : Json → Option (List (String × Json))
  | .obj fields => some fields
  | _ => none

/-- Model of `Value::as_array`. -/
def Json.asArray : Json → Option (List Json)
  | .arr elems => some elems
  | _ => none

/-- Content of one staged file: a raw string written by `write`, the
serialization of a JSON value (`to_string`), or the gzip-compressed
dump stream. The constructors are distinct so a staged filename-string
can never be confused with a staged JSON record. -/
inductive Content where
  | text (s : String) : Content
  | jsonText (j : Json) : Content
  | gz : Content

/-- Which staging step produced a write (bookkeeping tag; one tag per
write site in the source). -/
inductive Step where
  | dumpInfo : Step
  | coreDump : Step
  | podInfo : Step
  | inspectPod : Step
  | psList : Step
  | logFile (i : Nat) : Step
  | imageFile (i : Nat) : Step
deriving DecidableEq

/-- Completion-event variants written by the event notifier
(`CoreEvent::new_no_crio` vs `CoreEvent::new`). -/
inductive EventKind where
  | noCrio : EventKind
  | full : EventKind
deriving DecidableEq

/-- The job configuration (`config::CoreConfig`), restricted to the
fields `handle` reads.  The filename-template methods of the config are
not in scope (config.rs is external), so they are opaque string
fields/functions here. -/
structure CoreConfig where
  ignoreCrio : Bool
  coreEvents : Bool
  podSelectorLabel : String
  logLength : Nat
  dumpInfo : String
  dumpInfoFilename : String
  coreFilename : String
  podFilename : String
  inspectPodFilename : String
  psFilename : String
  logFilename : Nat → String
  imageFilename : Nat → String

/-- Environment oracle: the outcome of every external operation the
pipeline performs, in program order.  Per-container operations are
indexed by the loop counter. -/
structure Env where
  logInitOk : Bool
  podResult : Except String Json
  tarCreateOk : Bool
  tarLockOk : Bool
  mkScratchOk : Bool
  dumpInfoWriteOk : Bool
  coreCreateOk : Bool
  coreLockOk : Bool
  copyOk : Bool
  encoderFinishOk : Bool
  coreUnlockOk : Bool
  eventWriteOk : Bool
  podWriteOk : Bool
  inspectPodResult : Except String Json
  inspectWriteOk : Bool
  containersResult : Except String Json
  psWriteOk : Bool
  logsResult : Nat → Except String String
  logWriteOk : Nat → Bool
  imageResult : Nat → Except String Json
  imageWriteOk : Nat → Bool
  appendOk : Bool
  tarFinishOk : Bool
  removeOk : Bool

/-- Observable state of one run. `scratch = none` means the scratch
directory `/tmp/core` does not exist; `some items` lists the staged
files inside it.  `archiveContents` are the entries actually appended
into the tar (via `append_dir_all`), under the fixed `core/` prefix.
`writeLog` records every successful staging write, in order, tagged by
its write site. -/
structure RunState where
  archiveCreated : Bool := false
  archiveFinalized : Bool := false
  archiveContents : List (String × Content) := []
  scratch : Option (List (String × Content)) := none
  writeLog : List (Step × String × Content) := []
  events : List EventKind := []
  ns : String := ""
  podname : String := ""

/-- How the worker run ends: an explicit `process::exit(n)`, a normal
`Ok(())` return, an `Err` return propagated by `?`, or a panic of the
worker thread (a failed `unwrap`). -/
inductive Outcome where
  | exited (n : Nat) : Outcome
  | retOk : Outcome
  | retErr : Outcome
  | panicked : Outcome
deriving DecidableEq

/-- Record one successful staging write: the file appears in the
scratch directory and in the write log. -/
def RunState.stage (st : RunState) (tag : Step) (name : String) (c : Content) : RunState :=
  { st with
    scratch := st.scratch.map (fun l => l ++ [(name, c)])
    writeLog := st.writeLog ++ [(tag, name, c)] }

/-- One staging write attempt (`File::create` / `fs::write` into
`/tmp/core`): it can only succeed when the scratch directory exists and
the oracle says the I/O succeeds; otherwise the caller takes its error
branch. -/
def tryStage (ok : Bool) (st : RunState) (tag : Step) (name : String) (c : Content) :
    Option RunState :=
  match st.scratch with
  | some _ => if ok then some (st.stage tag name c) else none
  | none => none

/-- The failure pattern `tar_core.finish()?; remove_dir_all("/tmp/core").unwrap(); process::exit(1)`
(used at most staging-write failure sites and the missing-pod-id site). -/
def sealRemoveExit1 (env : Env) (st : RunState) : RunState × Outcome :=
  if env.tarFinishOk then
    let st := { st with archiveFinalized := true }
    match st.scratch with
    | some _ =>
      if env.removeOk then ({ st with scratch := none }, .exited 1)
      else (st, .panicked)
    | none => (st, .panicked)
  else (st, .retErr)

/-- The failure pattern `tar_core.finish()?; process::exit(1)` (the
pod-info write failure site: no scratch-directory removal). -/
def sealExit1 (env : Env) (st : RunState) : RunState × Outcome :=
  if env.tarFinishOk then ({ st with archiveFinalized := true }, .exited 1)
  else (st, .retErr)

/-- The failure pattern `remove_dir_all("/tmp/core").unwrap(); process::exit(1)`
(core staging-file creation failure and mid-copy stream failure: no
archive finalization). -/
def removeExit1 (env : Env) (st : RunState) : RunState × Outcome :=
  match st.scratch with
  | some _ =>
    if env.removeOk then ({ st with scratch := none }, .exited 1)
    else (st, .panicked)
  | none => (st, .panicked)

/-- The `unwrap_or_else` degrade pattern for string-valued queries:
substitute the empty string on failure. -/
def orEmptyStr : Except String String → String
  | .ok s => s
  | .error _ => ""

/-- The `unwrap_or_else(|e| json!({}))` degrade pattern: substitute the
empty JSON object on failure. -/
def orEmptyObj : Except String Json → Json
  | .ok j => j
  | .error _ => Json.obj []

/-- The resolved pod object: `cli.pod(hostname)` degraded to the empty
JSON object on failure (main.rs lines 79-83). -/
def resolvedPod (env : Env) : Json :=
  orEmptyObj env.podResult

/-- Per-container loop (main.rs lines 261-311): for each container, in
order, read its image reference (missing reference breaks the loop),
fetch and stage its log tail (query failure degrades to the empty
string), fetch and stage its image record (query failure degrades to
the empty object); either staging-write failure is fatal. -/
def containerLoop (cc : CoreConfig) (env : Env) :
    List Json → Nat → RunState → RunState ⊕ (RunState × Outcome)
  | [], _, st => .inl st
  | container :: rest, i, st =>
    match (container.index "imageRef").asStr with
    | none => .inl st
    | some _ =>
      match tryStage (env.logWriteOk i) st (.logFile i) (cc.logFilename i)
          (.text (orEmptyStr (env.logsResult i))) with
      | none => .inr (sealRemoveExit1 env st)
      | some st =>
        match tryStage (env.imageWriteOk i) st (.imageFile i) (cc.imageFilename i)
            (.jsonText (orEmptyObj (env.imageResult i))) with
        | none => .inr (sealRemoveExit1 env st)
        | some st => containerLoop cc env rest (i + 1) st

/-- Success finalization (main.rs lines 313-326): append the whole
scratch directory under `core/` (panics if it is missing), seal the
archive, remove the scratch directory (failure only logged here), then
optionally write the full completion event. -/
def finalizeSuccess (cc : CoreConfig) (env : Env) (st : RunState) : RunState × Outcome :=
  match st.scratch with
  | none => (st, .panicked)
  | some items =>
    if env.appendOk then
      let st := { st with
        archiveContents := st.archiveContents ++ items.map (fun p => ("core/" ++ p.1, p.2)) }
      if env.tarFinishOk then
        let st := { st with archiveFinalized := true }
        let st := if env.removeOk then { st with scratch := none } else st
        if cc.coreEvents then
          if env.eventWriteOk then
            ({ st with events := st.events ++ [EventKind.full] }, .retOk)
          else (st, .retErr)
        else (st, .retOk)
      else (st, .retErr)
    else (st, .panicked)

/-- The skip-correlation branch (main.rs lines 175-187): optionally
write the no-correlation event, append the scratch directory under
`core/` (unwrap), seal the archive, remove the scratch directory
(unwrap), and exit 0. -/
def skipFinalize (cc : CoreConfig) (env : Env) (st : RunState) : RunState × Outcome :=
  let next := fun (st : RunState) =>
    match st.scratch with
    | none => (st, Outcome.panicked)
    | some items =>
      if env.appendOk then
        let st := { st with
          archiveContents := st.archiveContents ++ items.map (fun p => ("core/" ++ p.1, p.2)) }
        if env.tarFinishOk then
          let st := { st with archiveFinalized := true }
          match st.scratch with
          | some _ =>
            if env.removeOk then ({ st with scratch := none }, Outcome.exited 0)
            else (st, Outcome.panicked)
          | none => (st, Outcome.panicked)
        else (st, Outcome.retErr)
      else (st, Outcome.panicked)
  if cc.coreEvents then
    if env.eventWriteOk then next { st with events := st.events ++ [EventKind.noCrio] }
    else (st, .retErr)
  else next st

/-- The correlation phase (main.rs lines 189-326): stage the pod-info
record, extract the pod id (missing id is fatal), query pod inspection
details (degrades to empty; the result itself is then unused — the
inspect-pod staging write stores the *filename* string), stage the
inspect-pod file, query the container list (failure fatal), stage the
process-list record, run the per-container loop, then finalize. -/
def correlate (cc : CoreConfig) (env : Env) (st : RunState) (pod : Json) :
    RunState × Outcome :=
  match tryStage env.podWriteOk st .podInfo cc.podFilename (.jsonText pod) with
  | none => sealExit1 env st
  | some st =>
    match (pod.index "id").asStr with
    | none => sealRemoveExit1 env st
    | some _podId =>
      -- `cli.inspect_pod(pod_id)` is queried here (degrading to the empty
      -- object), but its result is dead: the staging write below stores the
      -- inspect-pod FILENAME string as the file content (main.rs line 222).
      match tryStage env.inspectWriteOk st .inspectPod cc.inspectPodFilename
          (.text cc.inspectPodFilename) with
      | none => sealRemoveExit1 env st
      | some st =>
        match env.containersResult with
        | .error _ => sealRemoveExit1 env st
        | .ok ps =>
          match tryStage env.psWriteOk st .psList cc.psFilename (.jsonText ps) with
          | none => sealRemoveExit1 env st
          | some st =>
            match (ps.index "containers").asArray with
            | none => finalizeSuccess cc env st
            | some containers =>
              match containerLoop cc env containers 0 st with
              | .inl st => finalizeSuccess cc env st
              | .inr r => r

/-- Dump staging (main.rs lines 130-187): stage the dump-metadata
file, create and lock the compressed core staging file, stream-compress
standard input into it, finalize the encoder and release the lock, then
either skip correlation (`ignore_crio`) or correlate. -/
def stagingPhase (cc : CoreConfig) (env : Env) (st : RunState) (pod : Json) :
    RunState × Outcome :=
  match tryStage env.dumpInfoWriteOk st .dumpInfo cc.dumpInfoFilename (.text cc.dumpInfo) with
  | none => sealRemoveExit1 env st
  | some st =>
    match tryStage env.coreCreateOk st .coreDump (cc.coreFilename ++ ".gz") .gz with
    | none => removeExit1 env st
    | some st =>
      if env.coreLockOk then
        if env.copyOk then
          if env.encoderFinishOk then
            if env.coreUnlockOk then
              if cc.ignoreCrio then skipFinalize cc env st
              else correlate cc env st pod
            else (st, .retErr)
          else (st, .retErr)
        else removeExit1 env st
      else (st, .retErr)

/-- Archive creation and locking (main.rs lines 115-128): create the
destination archive (creation failure exits 1 immediately, before any
staging), take the exclusive lock (failure propagates as `Err`), then
create the scratch directory (failure is only logged). -/
def archivePhase (cc : CoreConfig) (env : Env) (st : RunState) (pod : Json) :
    RunState × Outcome :=
  if env.tarCreateOk then
    if env.tarLockOk then
      stagingPhase cc env
        (if env.mkScratchOk then
          { st with archiveCreated := true, scratch := some [] }
        else { st with archiveCreated := true }) pod
    else ({ st with archiveCreated := true }, .retErr)
  else ({ st with archiveCreated := false }, .exited 1)

/-- The archive phase (main.rs lines 104-187): refine the job's
namespace and pod-name from the resolved pod (each defaulting
independently to "unknown"), then create/lock the archive and stage the
dump. -/
def buildArchive (cc : CoreConfig) (env : Env) (st : RunState) (pod : Json) :
    RunState × Outcome :=
  archivePhase cc env
    { st with
      ns := (((pod.index "metadata").index "namespace").asStr).getD "unknown"
      podname := (((pod.index "metadata").index "name").asStr).getD "unknown" } pod

/-- The run state at worker entry: `handle` first sets the job's
namespace to "default" (main.rs line 47); nothing exists on disk yet. -/
def initState : RunState := { ns := "default" }

/-- The worker (`handle`, main.rs lines 46-327): set the namespace to
"default", initialize logging (failure propagates as `Err`), resolve
the pod (degrading to the empty object), apply the label-selector
filter (an unchecked `as_object().unwrap()` on the pod's `labels`
field, then an early `exit(0)` when the selector key is absent), and
run the archive phase. -/
def handle (cc : CoreConfig) (env : Env) : RunState × Outcome :=
  if env.logInitOk then
    if cc.podSelectorLabel = "" then
      buildArchive cc env initState (resolvedPod env)
    else
      match ((resolvedPod env).index "labels").asObject with
      | none => (initState, .panicked)
      | some labels =>
        match labels.lookup cc.podSelectorLabel with
        | none => (initState, .exited 0)
        | some _ => buildArchive cc env initState (resolvedPod env)
  else (initState, .retErr)

/-- The process exit code as produced by `main` (main.rs lines 26-44):
the supervisor waits on the worker with a deadline. `timedOut` states
that the deadline elapsed before the worker completed (returned,
panicked, or called `process::exit`): then the supervisor exits 32.  A
worker panic drops the channel sender, so `recv_timeout` also returns
an error and the supervisor exits 32.  Otherwise the worker's own exit
behaviour propagates: an explicit `process::exit(n)` code, 0 for
`Ok(())`, 1 for a propagated `Err`. -/
def processExit (cc : CoreConfig) (env : Env) (timedOut : Bool) : Nat :=
  if timedOut then 32
  else
    match (handle cc env).2 with
    | .exited n => n
    | .retOk => 0
    | .retErr => 1
    | .panicked => 32

/-! ## Structural lemmas about the failure helpers -/

theorem tryStage_none {ok : Bool} {st : RunState} {tag : Step} {name : String} {c : Content}
    (h : tryStage ok st tag name c = none) : ok = false ∨ st.scratch = none := by
  unfold tryStage at h
  rcases hs : st.scratch with _ | l
  · exact Or.inr rfl
  · rw [hs] at h
    rcases hok : ok with _ | _
    · exact Or.inl rfl
    · rw [hok] at h; simp at h

theorem tryStage_some {ok : Bool} {st st' : RunState} {tag : Step} {name : String} {c : Content}
    (h : tryStage ok st tag name c = some st') : st' = st.stage tag name c := by
  unfold tryStage at h
  rcases hs : st.scratch with _ | l <;> rw [hs] at h
  · simp at h
  · rcases hok : ok with _ | _ <;> rw [hok] at h <;> simp at h
    exact h.symm

theorem sealRemoveExit1_cases (env : Env) (st : RunState) :
    ((sealRemoveExit1 env st).2 = .exited 1 ∧ (sealRemoveExit1 env st).1.scratch = none ∧
      (sealRemoveExit1 env st).1.archiveFinalized = true) ∨
    (sealRemoveExit1 env st).2 = .panicked ∨ (sealRemoveExit1 env st).2 = .retErr := by
  unfold sealRemoveExit1
  rcases htf : env.tarFinishOk with _ | _ <;> simp
  rcases hs : st.scratch with _ | l <;> simp
  rcases hrm : env.removeOk with _ | _ <;> simp

theorem sealExit1_cases (env : Env) (st : RunState) :
    ((sealExit1 env st).2 = .exited 1 ∧ (sealExit1 env st).1.scratch = st.scratch ∧
      (sealExit1 env st).1.archiveFinalized = true) ∨
    (sealExit1 env st).2 = .retErr := by
  unfold sealExit1
  rcases htf : env.tarFinishOk with _ | _ <;> simp

theorem removeExit1_cases (env : Env) (st : RunState) :
    ((removeExit1 env st).2 = .exited 1 ∧ (removeExit1 env st).1.scratch = none ∧
      (removeExit1 env st).1.archiveFinalized = st.archiveFinalized) ∨
    (removeExit1 env st).2 = .panicked := by
  unfold removeExit1
  rcases hs : st.scratch with _ | l <;> simp
  rcases hrm : env.removeOk with _ | _ <;> simp

theorem finalizeSuccess_cases (cc : CoreConfig) (env : Env) (st : RunState) :
    ((finalizeSuccess cc env st).2 = .retOk ∧
      (env.removeOk = true → (finalizeSuccess cc env st).1.scratch = none)) ∨
    (finalizeSuccess cc env st).2 = .retErr ∨ (finalizeSuccess cc env st).2 = .panicked := by
  unfold finalizeSuccess
  rcases hs : st.scratch with _ | items <;> simp
  rcases hap : env.appendOk with _ | _ <;> simp
  rcases htf : env.tarFinishOk with _ | _ <;> simp
  rcases hrm : env.removeOk with _ | _ <;> simp
  · rcases hce : cc.coreEvents with _ | _ <;> simp
    rcases hev : env.eventWriteOk with _ | _ <;> simp
  · rcases hce : cc.coreEvents with _ | _ <;> simp
    rcases hev : env.eventWriteOk with _ | _ <;> simp

theorem skipFinalize_cases (cc : CoreConfig) (env : Env) (st : RunState) :
    ((skipFinalize cc env st).2 = .exited 0 ∧ (skipFinalize cc env st).1.scratch = none ∧
      (skipFinalize cc env st).1.archiveFinalized = true) ∨
    (skipFinalize cc env st).2 = .retErr ∨ (skipFinalize cc env st).2 = .panicked := by
  unfold skipFinalize
  rcases hce : cc.coreEvents with _ | _ <;>
    rcases hev : env.eventWriteOk with _ | _ <;>
    rcases hs : st.scratch with _ | items <;>
    rcases hap : env.appendOk with _ | _ <;>
    rcases htf : env.tarFinishOk with _ | _ <;>
    rcases hrm : env.removeOk with _ | _ <;>
    simp [hs, hev, hap, htf, hrm]

theorem containerLoop_inr (cc : CoreConfig) (env : Env) :
    ∀ (l : List Json) (i : Nat) (st : RunState) (r : RunState × Outcome),
      containerLoop cc env l i st = .inr r →
      (r.2 = .exited 1 ∧ r.1.scratch = none ∧ r.1.archiveFinalized = true) ∨
      r.2 = .panicked ∨ r.2 = .retErr := by
  intro l
  induction l with
  | nil =>
    intro i st r h
    simp [containerLoop] at h
  | cons container rest ih =>
    intro i st r h
    rw [containerLoop] at h
    split at h
    · exact absurd h (by simp)
    · split at h
      · rw [Sum.inr.injEq] at h
        rw [← h]
        exact sealRemoveExit1_cases env st
      · split at h
        · rw [Sum.inr.injEq] at h
          rw [← h]
          exact sealRemoveExit1_cases env _
        · exact ih _ _ _ h

/-! ## Master run invariant -/

/-- Bundle of whole-run invariants: (1) the worker only ever calls
`process::exit` with code 0 or 1; (2) whenever the run ends in
`exit(0)`, `exit(1)` or a normal `Ok` return, and the pod-info staging
write and the directory removals succeed, the scratch directory is
gone; (3) every `exit(1)` taken after the archive was created seals the
archive, provided the core staging file was creatable and the dump
stream copy succeeded. -/
def GoodRun (env : Env) (r : RunState × Outcome) : Prop :=
  (∀ n, r.2 = Outcome.exited n → n = 0 ∨ n = 1) ∧
  (env.podWriteOk = true → env.removeOk = true →
    (r.2 = Outcome.exited 0 ∨ r.2 = Outcome.exited 1 ∨ r.2 = Outcome.retOk) →
    r.1.scratch = none) ∧
  (env.coreCreateOk = true → env.copyOk = true → r.2 = Outcome.exited 1 →
    r.1.archiveCreated = true → r.1.archiveFinalized = true)

theorem goodRun_retErr (env : Env) (st : RunState) : GoodRun env (st, .retErr) := by
  unfold GoodRun
  refine ⟨?_, ?_, ?_⟩ <;> intros <;> simp_all

theorem goodRun_panicked (env : Env) (st : RunState) : GoodRun env (st, .panicked) := by
  unfold GoodRun
  refine ⟨?_, ?_, ?_⟩ <;> intros <;> simp_all

theorem goodRun_exit0 (env : Env) (st : RunState) (h : st.scratch = none) :
    GoodRun env (st, .exited 0) := by
  unfold GoodRun
  refine ⟨?_, ?_, ?_⟩ <;> intros <;> simp_all

theorem goodRun_sealRemoveExit1 (env : Env) (st : RunState) :
    GoodRun env (sealRemoveExit1 env st) := by
  unfold GoodRun
  rcases sealRemoveExit1_cases env st with ⟨h1, h2, h3⟩ | h | h <;>
    refine ⟨?_, ?_, ?_⟩ <;> intros <;> simp_all

theorem goodRun_sealExit1 (env : Env) (st : RunState)
    (h : env.podWriteOk = true → st.scratch = none) :
    GoodRun env (sealExit1 env st) := by
  unfold GoodRun
  rcases sealExit1_cases env st with ⟨h1, h2, h3⟩ | hr <;>
    refine ⟨?_, ?_, ?_⟩ <;> intros <;> simp_all

theorem goodRun_removeExit1 (env : Env) (st : RunState)
    (h3 : env.coreCreateOk = true → env.copyOk = true →
      (removeExit1 env st).2 = Outcome.exited 1 →
      (removeExit1 env st).1.archiveCreated = true →
      (removeExit1 env st).1.archiveFinalized = true) :
    GoodRun env (removeExit1 env st) := by
  unfold GoodRun
  rcases removeExit1_cases env st with ⟨h1, h2, _⟩ | hp
  · exact ⟨fun n hn => by rw [h1] at hn; cases hn; exact Or.inr rfl,
      fun _ _ _ => h2, h3⟩
  · refine ⟨?_, ?_, ?_⟩ <;> intros <;> simp_all

theorem removeExit1_of_noScratch (env : Env) (st : RunState) (h : st.scratch = none) :
    removeExit1 env st = (st, .panicked) := by
  unfold removeExit1
  rw [h]

theorem goodRun_finalizeSuccess (cc : CoreConfig) (env : Env) (st : RunState) :
    GoodRun env (finalizeSuccess cc env st) := by
  unfold GoodRun
  rcases finalizeSuccess_cases cc env st with ⟨h1, h2⟩ | h | h <;>
    refine ⟨?_, ?_, ?_⟩ <;> intros <;> simp_all

theorem goodRun_skipFinalize (cc : CoreConfig) (env : Env) (st : RunState) :
    GoodRun env (skipFinalize cc env st) := by
  unfold GoodRun
  rcases skipFinalize_cases cc env st with ⟨h1, h2, h3⟩ | h | h <;>
    refine ⟨?_, ?_, ?_⟩ <;> intros <;> simp_all

theorem goodRun_containerLoop_inr (cc : CoreConfig) (env : Env) {l : List Json} {i : Nat}
    {st : RunState} {r : RunState × Outcome} (h : containerLoop cc env l i st = .inr r) :
    GoodRun env r := by
  unfold GoodRun
  rcases containerLoop_inr cc env l i st r h with ⟨h1, h2, h3⟩ | hp | hp <;>
    refine ⟨?_, ?_, ?_⟩ <;> intros <;> simp_all

theorem correlate_good (cc : CoreConfig) (env : Env) (st : RunState) (pod : Json) :
    GoodRun env (correlate cc env st pod) := by
  unfold correlate
  split
  · rename_i hts
    exact goodRun_sealExit1 env st
      (fun hp => (tryStage_none hts).resolve_left (by simp [hp]))
  · rename_i st1 hts
    split
    · exact goodRun_sealRemoveExit1 env st1
    · split
      · exact goodRun_sealRemoveExit1 env st1
      · rename_i st2 hts2
        split
        · exact goodRun_sealRemoveExit1 env st2
        · rename_i ps hps
          split
          · exact goodRun_sealRemoveExit1 env st2
          · rename_i st3 hts3
            split
            · exact goodRun_finalizeSuccess cc env st3
            · rename_i containers hcon
              split
              · rename_i st4 hloop
                exact goodRun_finalizeSuccess cc env st4
              · rename_i r hloop
                exact goodRun_containerLoop_inr cc env hloop

theorem stagingPhase_good (cc : CoreConfig) (env : Env) (st : RunState) (pod : Json) :
    GoodRun env (stagingPhase cc env st pod) := by
  unfold stagingPhase
  split
  · exact goodRun_sealRemoveExit1 env st
  · rename_i st1 hts
    split
    · rename_i hts2
      refine goodRun_removeExit1 env st1 ?_
      intro hc hcp hex hcr
      rcases tryStage_none hts2 with hcf | hsn
      · rw [hc] at hcf; cases hcf
      · rw [removeExit1_of_noScratch env st1 hsn] at hex
        simp at hex
    · rename_i st2 hts2
      split
      · split
        · split
          · split
            · split
              · exact goodRun_skipFinalize cc env st2
              · exact correlate_good cc env st2 pod
            · exact goodRun_retErr env st2
          · exact goodRun_retErr env st2
        · rename_i hcp
          refine goodRun_removeExit1 env st2 ?_
          intro _ hcpt _ _
          exact absurd hcpt hcp
      · exact goodRun_retErr env st2

theorem archivePhase_good (cc : CoreConfig) (env : Env) (st : RunState) (pod : Json)
    (hsc : st.scratch = none) :
    GoodRun env (archivePhase cc env st pod) := by
  unfold archivePhase
  split
  · split
    · exact stagingPhase_good cc env _ pod
    · exact goodRun_retErr env _
  · unfold GoodRun
    refine ⟨?_, ?_, ?_⟩ <;> intros <;> simp_all

theorem buildArchive_good (cc : CoreConfig) (env : Env) (st : RunState) (pod : Json)
    (hsc : st.scratch = none) :
    GoodRun env (buildArchive cc env st pod) := by
  unfold buildArchive
  exact archivePhase_good cc env _ pod (by simp [hsc])

theorem handle_good (cc : CoreConfig) (env : Env) : GoodRun env (handle cc env) := by
  unfold handle
  split
  · split
    · exact buildArchive_good cc env _ _ rfl
    · split
      · exact goodRun_panicked env _
      · split
        · exact goodRun_exit0 env _ rfl
        · exact buildArchive_good cc env _ _ rfl
  · exact goodRun_retErr env _

/-! ## Write-log invariant: the inspect-pod artifact stores its own filename -/

theorem writeLog_sealRemoveExit1 (env : Env) (st : RunState) :
    (sealRemoveExit1 env st).1.writeLog = st.writeLog := by
  unfold sealRemoveExit1
  rcases htf : env.tarFinishOk with _ | _ <;>
    rcases hs : st.scratch with _ | l <;>
    rcases hrm : env.removeOk with _ | _ <;> simp [hs, htf, hrm]

theorem writeLog_sealExit1 (env : Env) (st : RunState) :
    (sealExit1 env st).1.writeLog = st.writeLog := by
  unfold sealExit1
  rcases htf : env.tarFinishOk with _ | _ <;> simp [htf]

theorem writeLog_removeExit1 (env : Env) (st : RunState) :
    (removeExit1 env st).1.writeLog = st.writeLog := by
  unfold removeExit1
  rcases hs : st.scratch with _ | l <;>
    rcases hrm : env.removeOk with _ | _ <;> simp [hs, hrm]

theorem writeLog_finalizeSuccess (cc : CoreConfig) (env : Env) (st : RunState) :
    (finalizeSuccess cc env st).1.writeLog = st.writeLog := by
  unfold finalizeSuccess
  rcases hs : st.scratch with _ | items <;>
    rcases hap : env.appendOk with _ | _ <;>
    rcases htf : env.tarFinishOk with _ | _ <;>
    rcases hrm : env.removeOk with _ | _ <;>
    rcases hce : cc.coreEvents with _ | _ <;>
    rcases hev : env.eventWriteOk with _ | _ <;> simp [hs, hap, htf, hrm, hce, hev]

theorem writeLog_skipFinalize (cc : CoreConfig) (env : Env) (st : RunState) :
    (skipFinalize cc env st).1.writeLog = st.writeLog := by
  unfold skipFinalize
  rcases hce : cc.coreEvents with _ | _ <;>
    rcases hev : env.eventWriteOk with _ | _ <;>
    rcases hs : st.scratch with _ | items <;>
    rcases hap : env.appendOk with _ | _ <;>
    rcases htf : env.tarFinishOk with _ | _ <;>
    rcases hrm : env.removeOk with _ | _ <;> simp [hs, hev, hap, htf, hrm]

/-- Invariant on a write log: every entry tagged as the inspect-pod
staging write stores the inspect-pod filename both as the file name and
as the file's (string) content. -/
def InspectInv (cc : CoreConfig) (l : List (Step × String × Content)) : Prop :=
  ∀ s c, (Step.inspectPod, s, c) ∈ l →
    s = cc.inspectPodFilename ∧ c = Content.text cc.inspectPodFilename

theorem inspectInv_nil (cc : CoreConfig) : InspectInv cc [] := by
  intro s c hm
  cases hm

theorem inspectInv_stage (cc : CoreConfig) {st : RunState} {tag : Step} {name : String}
    {c : Content} (h : InspectInv cc st.writeLog)
    (htag : tag = Step.inspectPod →
      name = cc.inspectPodFilename ∧ c = Content.text cc.inspectPodFilename) :
    InspectInv cc (st.stage tag name c).writeLog := by
  intro s c' hm
  simp only [RunState.stage, List.mem_append, List.mem_singleton] at hm
  rcases hm with hm | hm
  · exact h s c' hm
  · rw [Prod.ext_iff, Prod.ext_iff] at hm
    obtain ⟨h1, h2, h3⟩ := hm
    simp only at h1 h2 h3
    obtain ⟨hn, hc⟩ := htag h1.symm
    exact ⟨h2.trans hn, h3.trans hc⟩

/-- The write log carried by either result of the container loop. -/
def resultLog : RunState ⊕ (RunState × Outcome) → List (Step × String × Content)
  | .inl st => st.writeLog
  | .inr r => r.1.writeLog

theorem inspectInv_containerLoop (cc : CoreConfig) (env : Env) :
    ∀ (l : List Json) (i : Nat) (st : RunState), InspectInv cc st.writeLog →
      InspectInv cc (resultLog (containerLoop cc env l i st)) := by
  intro l
  induction l with
  | nil =>
    intro i st h
    simpa [containerLoop, resultLog] using h
  | cons container rest ih =>
    intro i st h
    rw [containerLoop]
    split
    · exact h
    · split
      · simp only [resultLog, writeLog_sealRemoveExit1]
        exact h
      · rename_i st1 hts
        have h1 : InspectInv cc st1.writeLog := by
          rw [tryStage_some hts]
          exact inspectInv_stage cc h (fun hh => Step.noConfusion hh)
        split
        · simp only [resultLog, writeLog_sealRemoveExit1]
          exact h1
        · rename_i st2 hts2
          have h2 : InspectInv cc st2.writeLog := by
            rw [tryStage_some hts2]
            exact inspectInv_stage cc h1 (fun hh => Step.noConfusion hh)
          exact ih _ _ h2

theorem inspectInv_correlate (cc : CoreConfig) (env : Env) (st : RunState) (pod : Json)
    (h : InspectInv cc st.writeLog) :
    InspectInv cc (correlate cc env st pod).1.writeLog := by
  unfold correlate
  split
  · rw [writeLog_sealExit1]; exact h
  · rename_i st1 hts
    have h1 : InspectInv cc st1.writeLog := by
      rw [tryStage_some hts]
      exact inspectInv_stage cc h (fun hh => Step.noConfusion hh)
    split
    · rw [writeLog_sealRemoveExit1]; exact h1
    · split
      · rw [writeLog_sealRemoveExit1]; exact h1
      · rename_i st2 hts2
        have h2 : InspectInv cc st2.writeLog := by
          rw [tryStage_some hts2]
          exact inspectInv_stage cc h1 (fun _ => ⟨rfl, rfl⟩)
        split
        · rw [writeLog_sealRemoveExit1]; exact h2
        · rename_i ps hps
          split
          · rw [writeLog_sealRemoveExit1]; exact h2
          · rename_i st3 hts3
            have h3 : InspectInv cc st3.writeLog := by
              rw [tryStage_some hts3]
              exact inspectInv_stage cc h2 (fun hh => Step.noConfusion hh)
            split
            · rw [writeLog_finalizeSuccess]; exact h3
            · rename_i containers hcon
              split
              · rename_i st4 hloop
                rw [writeLog_finalizeSuccess]
                have hres := inspectInv_containerLoop cc env containers 0 st3 h3
                rw [hloop] at hres
                simpa [resultLog] using hres
              · rename_i r hloop
                have hres := inspectInv_containerLoop cc env containers 0 st3 h3
                rw [hloop] at hres
                simpa [resultLog] using hres

theorem inspectInv_stagingPhase (cc : CoreConfig) (env : Env) (st : RunState) (pod : Json)
    (h : InspectInv cc st.writeLog) :
    InspectInv cc (stagingPhase cc env st pod).1.writeLog := by
  unfold stagingPhase
  split
  · rw [writeLog_sealRemoveExit1]; exact h
  · rename_i st1 hts
    have h1 : InspectInv cc st1.writeLog := by
      rw [tryStage_some hts]
      exact inspectInv_stage cc h (fun hh => Step.noConfusion hh)
    split
    · rw [writeLog_removeExit1]; exact h1
    · rename_i st2 hts2
      have h2 : InspectInv cc st2.writeLog := by
        rw [tryStage_some hts2]
        exact inspectInv_stage cc h1 (fun hh => Step.noConfusion hh)
      split
      · split
        · split
          · split
            · split
              · rw [writeLog_skipFinalize]; exact h2
              · exact inspectInv_correlate cc env st2 pod h2
            · exact h2
          · exact h2
        · rw [writeLog_removeExit1]; exact h2
      · exact h2

theorem inspectInv_ite (cc : CoreConfig) (b : Bool) (st1 st2 : RunState)
    (h1 : InspectInv cc st1.writeLog) (h2 : InspectInv cc st2.writeLog) :
    InspectInv cc (if b = true then st1 else st2).writeLog := by
  cases b
  · rw [if_neg (by simp)]; exact h2
  · rw [if_pos rfl]; exact h1

theorem inspectInv_handle (cc : CoreConfig) (env : Env) :
    InspectInv cc (handle cc env).1.writeLog := by
  unfold handle
  split
  · split
    · unfold buildArchive archivePhase
      split
      · split
        · exact inspectInv_stagingPhase cc env _ _
            (inspectInv_ite cc _ _ _ (inspectInv_nil cc) (inspectInv_nil cc))
        · exact inspectInv_nil cc
      · exact inspectInv_nil cc
    · split
      · exact inspectInv_nil cc
      · split
        · exact inspectInv_nil cc
        · unfold buildArchive archivePhase
          split
          · split
            · exact inspectInv_stagingPhase cc env _ _
                (inspectInv_ite cc _ _ _ (inspectInv_nil cc) (inspectInv_nil cc))
            · exact inspectInv_nil cc
          · exact inspectInv_nil cc
  · exact inspectInv_nil cc

/-! ## Concrete runs used as witnesses and counterexamples -/

/-- A concrete job configuration: no label selector, correlation
enabled, completion events disabled. -/
def ccBase : CoreConfig :=
  { ignoreCrio := false
    coreEvents := false
    podSelectorLabel := ""
    logLength := 500
    dumpInfo := "DUMPINFO"
    dumpInfoFilename := "dump-info.json"
    coreFilename := "core"
    podFilename := "pod-info.json"
    inspectPodFilename := "inspect-pod.json"
    psFilename := "ps-info.json"
    logFilename := fun i => "log-" ++ toString i ++ ".log"
    imageFilename := fun i => "image-" ++ toString i ++ ".json" }

/-- A concrete resolved pod: has an id, metadata and one label. -/
def podGood : Json :=
  Json.obj [("id", Json.str "pid1"),
            ("metadata", Json.obj [("namespace", Json.str "myns"), ("name", Json.str "mypod")]),
            ("labels", Json.obj [("app", Json.str "x")])]

/-- A concrete container list: three containers, all with image
references. -/
def containersGood : Json :=
  Json.obj [("containers", Json.arr
    [Json.obj [("id", Json.str "c0"), ("imageRef", Json.str "r0")],
     Json.obj [("id", Json.str "c1"), ("imageRef", Json.str "r1")],
     Json.obj [("id", Json.str "c2"), ("imageRef", Json.str "r2")]])]

/-- A concrete environment in which every external operation succeeds. -/
def envBase : Env :=
  { logInitOk := true
    podResult := .ok podGood
    tarCreateOk := true
    tarLockOk := true
    mkScratchOk := true
    dumpInfoWriteOk := true
    coreCreateOk := true
    coreLockOk := true
    copyOk := true
    encoderFinishOk := true
    coreUnlockOk := true
    eventWriteOk := true
    podWriteOk := true
    inspectPodResult := .ok (Json.obj [("info", Json.str "I")])
    inspectWriteOk := true
    containersResult := .ok containersGood
    psWriteOk := true
    logsResult := fun i => .ok ("LOG" ++ toString i)
    logWriteOk := fun _ => true
    imageResult := fun i => .ok (Json.obj [("img", Json.str (toString i))])
    imageWriteOk := fun _ => true
    appendOk := true
    tarFinishOk := true
    removeOk := true }

/-! ## Claim C8 -/

/-- Claim C8, counterexample: with no deadline elapse (`timedOut =
false`), a run with a label selector configured and failed pod
resolution makes the worker panic, the channel sender is dropped, and
the supervisor exits 32 — so exit code 32 does occur for a reason other
than the deadline. -/
theorem c8_counterexample :
    processExit { ccBase with podSelectorLabel := "team" }
      { envBase with podResult := .error "no pod" } false = 32 := rfl

/-- Claim C8 (amended): the process exits 32 exactly when the deadline
elapses before the worker completes OR the worker thread panics
(dropping the channel sender, which `recv_timeout` also reports as an
error); otherwise the worker's own exit behaviour propagates, and the
worker itself only ever exits 0 or 1. -/
theorem c8_exit32_characterization (cc : CoreConfig) (env : Env) (t : Bool) :
    processExit cc env t = 32 ↔ (t = true ∨ (handle cc env).2 = Outcome.panicked) := by
  unfold processExit
  cases t
  · simp only [Bool.false_eq_true, if_false, false_or]
    rcases ho : (handle cc env).2 with n | _ | _ | _
    · obtain ⟨h1, -, -⟩ := handle_good cc env
      have hn := h1 n ho
      show n = 32 ↔ Outcome.exited n = Outcome.panicked
      constructor
      · intro h32; exfalso; omega
      · intro hcontra; exact absurd hcontra (by simp)
    · simp
    · simp
    · simp
  · simp

/-! ## Claim C9 -/

/-- Claim C9 (confirmed): when a label-selector filter is configured
and pod resolution failed (the substituted empty pod object has no
`labels` field), the label check's `as_object().unwrap()` panics the
worker thread (main.rs line 91) instead of degrading gracefully. -/
theorem c9_label_check_panics (cc : CoreConfig) (env : Env) (msg : String)
    (hlog : env.logInitOk = true) (hsel : cc.podSelectorLabel ≠ "")
    (hpod : env.podResult = Except.error msg) :
    (handle cc env).2 = Outcome.panicked := by
  unfold handle
  rw [hlog, if_pos rfl, if_neg hsel]
  unfold resolvedPod orEmptyObj
  rw [hpod]
  rfl

/-- Claim C9, witness: a concrete run with selector "team" and a failed
pod resolution panics. -/
theorem c9_witness :
    (handle { ccBase with podSelectorLabel := "team" }
      { envBase with podResult := .error "no pod" }).2 = Outcome.panicked :=
  c9_label_check_panics _ _ "no pod" rfl (by decide) rfl

/-! ## Claim C10 -/

/-- Claim C10 (confirmed): in every run, any staged inspect-pod
artifact has the inspect-pod filename itself as its file content
(main.rs line 222 writes `cc.get_inspect_pod_filename()` as the data);
the pod-level inspection record is never staged (the content is a
`Content.text`, never a `Content.jsonText`). -/
theorem c10_inspect_artifact_is_filename (cc : CoreConfig) (env : Env) (s : String)
    (c : Content) (h : (Step.inspectPod, s, c) ∈ (handle cc env).1.writeLog) :
    s = cc.inspectPodFilename ∧ c = Content.text cc.inspectPodFilename :=
  inspectInv_handle cc env s c h

/-- Claim C10, witness: a concrete run (empty container list) stages
the inspect-pod artifact, and the theorem yields its content. -/
theorem c10_witness :
    "inspect-pod.json" = ccBase.inspectPodFilename ∧
      Content.text "inspect-pod.json" = Content.text ccBase.inspectPodFilename :=
  c10_inspect_artifact_is_filename ccBase
    { envBase with containersResult := .ok (Json.obj []) } "inspect-pod.json"
    (Content.text "inspect-pod.json")
    (List.Mem.tail _ (List.Mem.tail _ (List.Mem.tail _ (List.Mem.head _))))

/-! ## Claim C1 -/

/-- Claim C1, counterexample: with a label selector configured ("team")
and a resolved pod whose label mapping lacks that key, the run exits 0
but NO destination archive exists: the early exit (main.rs line 98)
happens before `File::create` (line 115), so nothing is created, sealed
or staged. -/
theorem c1_counterexample :
    (handle { ccBase with podSelectorLabel := "team" } envBase).2 = Outcome.exited 0 ∧
      (handle { ccBase with podSelectorLabel := "team" } envBase).1.archiveCreated = false ∧
      (handle { ccBase with podSelectorLabel := "team" } envBase).1.archiveFinalized = false ∧
      (handle { ccBase with podSelectorLabel := "team" } envBase).1.writeLog = [] :=
  ⟨rfl, rfl, rfl, rfl⟩

/-- Claim C1 (amended): when a label-selector filter is configured and
the resolved pod's label mapping lacks that key, the run exits 0, but
the destination archive is never created (the early exit precedes
archive creation), nothing is staged, and no archive is sealed. -/
theorem c1_label_mismatch_skips_archive (cc : CoreConfig) (env : Env)
    (labels : List (String × Json))
    (hlog : env.logInitOk = true) (hsel : cc.podSelectorLabel ≠ "")
    (hlab : ((resolvedPod env).index "labels").asObject = some labels)
    (hmiss : labels.lookup cc.podSelectorLabel = none) :
    (handle cc env).2 = Outcome.exited 0 ∧ (handle cc env).1.archiveCreated = false ∧
      (handle cc env).1.archiveFinalized = false ∧ (handle cc env).1.writeLog = [] := by
  unfold handle
  rw [hlog, if_pos rfl, if_neg hsel, hlab]
  simp [hmiss, initState]

/-- Claim C1, witness: a concrete run with selector "team" and a pod
labelled only "app" exits 0 with no archive. -/
theorem c1_witness :
    (handle { ccBase with podSelectorLabel := "team" }
        { envBase with inspectWriteOk := true }).2 = Outcome.exited 0 ∧
      (handle { ccBase with podSelectorLabel := "team" }
        { envBase with inspectWriteOk := true }).1.archiveCreated = false ∧
      (handle { ccBase with podSelectorLabel := "team" }
        { envBase with inspectWriteOk := true }).1.archiveFinalized = false ∧
      (handle { ccBase with podSelectorLabel := "team" }
        { envBase with inspectWriteOk := true }).1.writeLog = [] :=
  c1_label_mismatch_skips_archive _ _ [("app", Json.str "x")] rfl (by decide) rfl rfl

/-! ## Claim C2 -/

/-- Claim C2, counterexample: with every operation succeeding except
creation of the compressed core staging file, the run takes a
fatal-local staging-file-creation failure path after the archive was
created, and exits 1 WITHOUT sealing the archive (main.rs lines 148-155
skip `tar_core.finish()`). -/
theorem c2_counterexample :
    (handle ccBase { envBase with coreCreateOk := false }).2 = Outcome.exited 1 ∧
      (handle ccBase { envBase with coreCreateOk := false }).1.archiveCreated = true ∧
      (handle ccBase { envBase with coreCreateOk := false }).1.archiveFinalized = false :=
  ⟨rfl, rfl, rfl⟩

/-- Claim C2 (amended): every fatal-local `exit(1)` taken after the
destination archive was created does seal the archive first, EXCEPT the
core-staging-file creation failure and mid-copy stream failure paths
(and the `?`-propagated lock/encoder failures, which exit nonzero via
`Err`): the amended guarantee holds provided the core staging file was
created and the dump stream copy succeeded. -/
theorem c2_fatal_exit_seals_archive (cc : CoreConfig) (env : Env)
    (hco : env.coreCreateOk = true) (hcp : env.copyOk = true)
    (hex : (handle cc env).2 = Outcome.exited 1)
    (hcr : (handle cc env).1.archiveCreated = true) :
    (handle cc env).1.archiveFinalized = true :=
  (handle_good cc env).2.2 hco hcp hex hcr

/-- Claim C2, witness: a dump-metadata write failure exits 1 with the
archive created and sealed. -/
theorem c2_witness :
    (handle ccBase { envBase with dumpInfoWriteOk := false }).1.archiveFinalized = true :=
  c2_fatal_exit_seals_archive ccBase { envBase with dumpInfoWriteOk := false }
    rfl rfl rfl rfl

/-! ## Claim C4 -/

/-- Claim C4, counterexample: a pod-info staging-write failure is a
fatal-local path (exit 1) on which the scratch directory is NOT removed
(main.rs lines 191-198 seal the archive but skip `remove_dir_all`). -/
theorem c4_counterexample :
    (handle ccBase { envBase with podWriteOk := false }).2 = Outcome.exited 1 ∧
      (handle ccBase { envBase with podWriteOk := false }).1.scratch.isSome = true :=
  ⟨rfl, rfl⟩

/-- Claim C4 (amended): on every success or fatal-local `process::exit`
path and on every normal `Ok` return, the scratch directory is removed
before the process exits — EXCEPT the pod-info write-failure path
(which exits 1 leaving the scratch directory behind) and removal
failures themselves; equivalently, cleanup is guaranteed whenever the
pod-info staging write and the directory removals succeed. -/
theorem c4_scratch_removed (cc : CoreConfig) (env : Env)
    (hpw : env.podWriteOk = true) (hrm : env.removeOk = true)
    (hout : (handle cc env).2 = Outcome.exited 0 ∨ (handle cc env).2 = Outcome.exited 1 ∨
      (handle cc env).2 = Outcome.retOk) :
    (handle cc env).1.scratch = none :=
  (handle_good cc env).2.1 hpw hrm hout

/-- Claim C4, witness: the fully successful run ends with the scratch
directory removed. -/
theorem c4_witness : (handle ccBase envBase).1.scratch = none :=
  c4_scratch_removed ccBase envBase rfl rfl (Or.inr (Or.inr rfl))

/-! ## Claim C3 -/

/-- Claim C3, counterexample: with pod resolution succeeded and only
the container-list query failing, the run exits 1 and the archive is
sealed but EMPTY — the staged dump, dump-metadata, pod-info and
inspect-pod files are deleted with the scratch directory without ever
being appended to the tar (the only `append_dir_all` calls are on the
success paths, main.rs lines 182 and 313). -/
theorem c3_counterexample :
    (handle ccBase { envBase with containersResult := .error "rpc failed" }).2 =
        Outcome.exited 1 ∧
      (handle ccBase { envBase with containersResult := .error "rpc failed" }).1.archiveFinalized
        = true ∧
      (handle ccBase { envBase with containersResult := .error "rpc failed" }).1.archiveContents
        = [] :=
  ⟨rfl, rfl, rfl⟩

/-- Claim C3 (amended): when pod resolution succeeded (the resolved
pod carries an id) and the container-list query fails, the run exits 1
with the archive sealed, but the archive contains NO artifacts at all:
dump, dump-metadata, pod-info and inspect-pod files were only staged in
the scratch directory, which is removed without being appended. -/
theorem c3_container_query_failure (cc : CoreConfig) (env : Env) (msg : String) (pid : String)
    (hlog : env.logInitOk = true) (hsel : cc.podSelectorLabel = "")
    (hic : cc.ignoreCrio = false)
    (htc : env.tarCreateOk = true) (htl : env.tarLockOk = true)
    (hms : env.mkScratchOk = true) (hdw : env.dumpInfoWriteOk = true)
    (hco : env.coreCreateOk = true) (hcl : env.coreLockOk = true)
    (hcp : env.copyOk = true) (hef : env.encoderFinishOk = true)
    (hcu : env.coreUnlockOk = true) (hpw : env.podWriteOk = true)
    (hid : ((resolvedPod env).index "id").asStr = some pid)
    (hiw : env.inspectWriteOk = true)
    (hct : env.containersResult = Except.error msg)
    (htf : env.tarFinishOk = true) (hrm : env.removeOk = true) :
    (handle cc env).2 = Outcome.exited 1 ∧
      (handle cc env).1.archiveFinalized = true ∧
      (handle cc env).1.archiveContents = [] ∧
      (handle cc env).1.scratch = none := by
  unfold handle buildArchive archivePhase stagingPhase correlate
  simp [hlog, hsel, hic, htc, htl, hms, hdw, hco, hcl, hcp, hef, hcu, hpw, hid, hiw, hct,
    htf, hrm, tryStage, RunState.stage, sealRemoveExit1, initState]

/-- Claim C3, witness: the concrete container-list failure run exits 1
with a sealed, empty archive and no scratch directory. -/
theorem c3_witness :
    (handle ccBase { envBase with containersResult := .error "down" }).2 = Outcome.exited 1 ∧
      (handle ccBase { envBase with containersResult := .error "down" }).1.archiveFinalized
        = true ∧
      (handle ccBase { envBase with containersResult := .error "down" }).1.archiveContents
        = [] ∧
      (handle ccBase { envBase with containersResult := .error "down" }).1.scratch = none :=
  c3_container_query_failure ccBase { envBase with containersResult := .error "down" }
    "down" "pid1" rfl rfl rfl rfl rfl rfl rfl rfl rfl rfl rfl rfl rfl rfl rfl rfl rfl rfl

/-! ## Claim C5 -/

/-- Claim C5, counterexample: with pod resolution failing and every
other operation succeeding (correlation enabled), the run does NOT exit
successfully: the substituted empty pod object has no id, the missing
pod id is fatal (main.rs lines 202-211), and the run exits 1 — although
namespace and pod-name are indeed defaulted to "unknown". -/
theorem c5_counterexample :
    (handle ccBase { envBase with podResult := .error "gone" }).2 = Outcome.exited 1 ∧
      (handle ccBase { envBase with podResult := .error "gone" }).1.ns = "unknown" ∧
      (handle ccBase { envBase with podResult := .error "gone" }).1.podname = "unknown" :=
  ⟨rfl, rfl, rfl⟩

/-- Claim C5 (amended): when the inspection tool fails to resolve a
pod and all other operations succeed, namespace and pod-name are
defaulted to "unknown" and the archive is sealed, but (with runtime
correlation enabled) the run exits 1, not 0: the substituted empty pod
object carries no pod id and the missing id is fatal. -/
theorem c5_pod_failure_defaults_unknown (cc : CoreConfig) (env : Env) (msg : String)
    (hlog : env.logInitOk = true) (hsel : cc.podSelectorLabel = "")
    (hic : cc.ignoreCrio = false)
    (hpod : env.podResult = Except.error msg)
    (htc : env.tarCreateOk = true) (htl : env.tarLockOk = true)
    (hms : env.mkScratchOk = true) (hdw : env.dumpInfoWriteOk = true)
    (hco : env.coreCreateOk = true) (hcl : env.coreLockOk = true)
    (hcp : env.copyOk = true) (hef : env.encoderFinishOk = true)
    (hcu : env.coreUnlockOk = true) (hpw : env.podWriteOk = true)
    (htf : env.tarFinishOk = true) (hrm : env.removeOk = true) :
    (handle cc env).2 = Outcome.exited 1 ∧
      (handle cc env).1.ns = "unknown" ∧
      (handle cc env).1.podname = "unknown" ∧
      (handle cc env).1.archiveFinalized = true := by
  unfold handle buildArchive archivePhase stagingPhase correlate
  simp [hlog, hsel, hic, hpod, htc, htl, hms, hdw, hco, hcl, hcp, hef, hcu, hpw, htf, hrm,
    tryStage, RunState.stage, sealRemoveExit1, initState, resolvedPod, orEmptyObj,
    Json.index, Json.asStr]

/-- Claim C5, witness: a concrete failed-pod-resolution run (all other
operations succeeding) exits 1 with "unknown" namespace and pod-name
and a sealed archive. -/
theorem c5_witness :
    (handle ccBase { envBase with podResult := .error "nope" }).2 = Outcome.exited 1 ∧
      (handle ccBase { envBase with podResult := .error "nope" }).1.ns = "unknown" ∧
      (handle ccBase { envBase with podResult := .error "nope" }).1.podname = "unknown" ∧
      (handle ccBase { envBase with podResult := .error "nope" }).1.archiveFinalized = true :=
  c5_pod_failure_defaults_unknown ccBase { envBase with podResult := .error "nope" } "nope"
    rfl rfl rfl rfl rfl rfl rfl rfl rfl rfl rfl rfl rfl rfl rfl rfl

/-! ## Claim C6 -/

/-- Claim C6, counterexample: a run configured to skip runtime
correlation but also carrying a label selector the pod does not match
exits 0 with NO archive at all — so it is not true that every
ignore-crio run, regardless of inspection behaviour, ends with a sealed
archive holding exactly the dump and dump-metadata artifacts. -/
theorem c6_counterexample :
    (handle { ccBase with ignoreCrio := true, podSelectorLabel := "team" } envBase).2 =
        Outcome.exited 0 ∧
      (handle { ccBase with ignoreCrio := true, podSelectorLabel := "team" }
        envBase).1.archiveCreated = false ∧
      (handle { ccBase with ignoreCrio := true, podSelectorLabel := "team" }
        envBase).1.archiveContents = [] :=
  ⟨rfl, rfl, rfl⟩

/-- Shared computation behind the skip-correlation guarantee: once the
label filter has been passed (or is absent), an ignore-crio run with
succeeding local operations exits 0 and seals an archive holding
exactly the dump-metadata and compressed dump entries. -/
theorem buildArchive_skip_correlation (cc : CoreConfig) (env : Env)
    (hic : cc.ignoreCrio = true)
    (htc : env.tarCreateOk = true) (htl : env.tarLockOk = true)
    (hms : env.mkScratchOk = true) (hdw : env.dumpInfoWriteOk = true)
    (hco : env.coreCreateOk = true) (hcl : env.coreLockOk = true)
    (hcp : env.copyOk = true) (hef : env.encoderFinishOk = true)
    (hcu : env.coreUnlockOk = true) (hev : env.eventWriteOk = true)
    (hap : env.appendOk = true) (htf : env.tarFinishOk = true) (hrm : env.removeOk = true) :
    (buildArchive cc env initState (resolvedPod env)).2 = Outcome.exited 0 ∧
      (buildArchive cc env initState (resolvedPod env)).1.archiveFinalized = true ∧
      (buildArchive cc env initState (resolvedPod env)).1.archiveContents =
        [("core/" ++ cc.dumpInfoFilename, Content.text cc.dumpInfo),
         ("core/" ++ (cc.coreFilename ++ ".gz"), Content.gz)] ∧
      (buildArchive cc env initState (resolvedPod env)).1.scratch = none := by
  unfold buildArchive archivePhase stagingPhase skipFinalize
  rcases hce : cc.coreEvents with _ | _ <;>
    simp [hic, htc, htl, hms, hdw, hco, hcl, hcp, hef, hcu, hev, hap, htf, hrm,
      hce, tryStage, RunState.stage, initState]

/-- Claim C6 (amended): when correlation skipping is enabled, the local
operations succeed, and either no label selector is configured or the
resolved pod carries the selector label, the run exits 0 and the sealed
archive contains exactly the dump-metadata and compressed dump
artifacts. Without that proviso the original claim fails: with a
selector configured, a pod-resolution failure panics the worker and a
label mismatch exits 0 with no archive at all. -/
theorem c6_skip_correlation_archive (cc : CoreConfig) (env : Env)
    (hic : cc.ignoreCrio = true)
    (hsel : cc.podSelectorLabel = "" ∨
      ∃ labels v, ((resolvedPod env).index "labels").asObject = some labels ∧
        labels.lookup cc.podSelectorLabel = some v)
    (hlog : env.logInitOk = true)
    (htc : env.tarCreateOk = true) (htl : env.tarLockOk = true)
    (hms : env.mkScratchOk = true) (hdw : env.dumpInfoWriteOk = true)
    (hco : env.coreCreateOk = true) (hcl : env.coreLockOk = true)
    (hcp : env.copyOk = true) (hef : env.encoderFinishOk = true)
    (hcu : env.coreUnlockOk = true) (hev : env.eventWriteOk = true)
    (hap : env.appendOk = true) (htf : env.tarFinishOk = true) (hrm : env.removeOk = true) :
    (handle cc env).2 = Outcome.exited 0 ∧
      (handle cc env).1.archiveFinalized = true ∧
      (handle cc env).1.archiveContents =
        [("core/" ++ cc.dumpInfoFilename, Content.text cc.dumpInfo),
         ("core/" ++ (cc.coreFilename ++ ".gz"), Content.gz)] ∧
      (handle cc env).1.scratch = none := by
  have hb := buildArchive_skip_correlation cc env hic htc htl hms hdw hco hcl hcp hef hcu
    hev hap htf hrm
  unfold handle
  rw [hlog, if_pos rfl]
  by_cases heq : cc.podSelectorLabel = ""
  · rw [if_pos heq]
    exact hb
  · rw [if_neg heq]
    rcases hsel with h | ⟨labels, v, hlab, hfound⟩
    · exact absurd h heq
    · rw [hlab]
      simp only [hfound]
      exact hb

/-- The skip-correlation job configuration exercised by the witness
run: correlation skipped AND a label selector ("app") that the resolved
pod carries. -/
def c6cc : CoreConfig := { ccBase with ignoreCrio := true, podSelectorLabel := "app" }

/-- Claim C6, witness: a concrete ignore-crio run whose selector "app"
is carried by the resolved pod exits 0 with a sealed archive holding
exactly the dump-metadata and dump entries. -/
theorem c6_witness :
    (handle c6cc envBase).2 = Outcome.exited 0 ∧
      (handle c6cc envBase).1.archiveFinalized = true ∧
      (handle c6cc envBase).1.archiveContents =
        [("core/" ++ c6cc.dumpInfoFilename, Content.text c6cc.dumpInfo),
         ("core/" ++ (c6cc.coreFilename ++ ".gz"), Content.gz)] ∧
      (handle c6cc envBase).1.scratch = none :=
  c6_skip_correlation_archive c6cc envBase rfl
    (Or.inr ⟨[("app", Json.str "x")], Json.str "x", rfl, rfl⟩)
    rfl rfl rfl rfl rfl rfl rfl rfl rfl rfl rfl rfl rfl rfl

/-! ## Claim C7 -/

/-- A concrete container list with three containers where the second
(0-based index 1) has no image reference. -/
def containersBroken : Json :=
  Json.obj [("containers", Json.arr
    [Json.obj [("id", Json.str "c0"), ("imageRef", Json.str "r0")],
     Json.obj [("id", Json.str "c1")],
     Json.obj [("id", Json.str "c2"), ("imageRef", Json.str "r2")]])]

/-- Claim C7, counterexample: with 3 containers and the 2nd container
(index 1) missing its image reference, the staged artifacts cover
container 0 ONLY — the loop reads the image reference first (main.rs
line 263) and breaks before writing anything for the failing container,
so there are no log/image artifacts for containers 1 or 2; the run does
exit 0. -/
theorem c7_counterexample :
    ((handle ccBase { envBase with containersResult := .ok containersBroken }).1.writeLog.map
        Prod.fst) =
      [Step.dumpInfo, Step.coreDump, Step.podInfo, Step.inspectPod, Step.psList,
       Step.logFile 0, Step.imageFile 0] ∧
      (handle ccBase { envBase with containersResult := .ok containersBroken }).2 =
        Outcome.retOk ∧
      processExit ccBase { envBase with containersResult := .ok containersBroken } false = 0 :=
  ⟨rfl, rfl, rfl⟩

/-- Claim C7 (amended): for a pod with 3 containers whose 2nd container
(index 1) lacks an image reference, the per-container loop aborts at
that container BEFORE staging anything for it, so the archive carries
log/image artifacts for container 0 only (not for containers 0 and 1),
and the run exits 0 when the container-list query succeeded. -/
theorem c7_missing_image_ref_stops_loop (cc : CoreConfig) (env : Env)
    (pid r0 : String) (ps c0 c1 c2 : Json)
    (hlog : env.logInitOk = true) (hsel : cc.podSelectorLabel = "")
    (hic : cc.ignoreCrio = false) (hce : cc.coreEvents = false)
    (htc : env.tarCreateOk = true) (htl : env.tarLockOk = true)
    (hms : env.mkScratchOk = true) (hdw : env.dumpInfoWriteOk = true)
    (hco : env.coreCreateOk = true) (hcl : env.coreLockOk = true)
    (hcp : env.copyOk = true) (hef : env.encoderFinishOk = true)
    (hcu : env.coreUnlockOk = true) (hpw : env.podWriteOk = true)
    (hid : ((resolvedPod env).index "id").asStr = some pid)
    (hiw : env.inspectWriteOk = true)
    (hct : env.containersResult = Except.ok ps)
    (hps : env.psWriteOk = true)
    (hcon : (ps.index "containers").asArray = some [c0, c1, c2])
    (hr0 : (c0.index "imageRef").asStr = some r0)
    (hr1 : (c1.index "imageRef").asStr = none)
    (hlw0 : env.logWriteOk 0 = true) (hiw0 : env.imageWriteOk 0 = true)
    (hap : env.appendOk = true) (htf : env.tarFinishOk = true) (hrm : env.removeOk = true) :
    (handle cc env).2 = Outcome.retOk ∧
      processExit cc env false = 0 ∧
      ((handle cc env).1.writeLog.map Prod.fst) =
        [Step.dumpInfo, Step.coreDump, Step.podInfo, Step.inspectPod, Step.psList,
         Step.logFile 0, Step.imageFile 0] := by
  unfold processExit handle buildArchive archivePhase stagingPhase correlate finalizeSuccess
  simp [hlog, hsel, hic, hce, htc, htl, hms, hdw, hco, hcl, hcp, hef, hcu, hpw, hid, hiw, hct,
    hps, hcon, hr0, hr1, hlw0, hiw0, hap, htf, hrm, containerLoop, tryStage, RunState.stage,
    initState]

/-- Claim C7, witness: the concrete 3-container run with the 2nd
container's image reference missing exits 0 and stages per-container
artifacts for container 0 only. -/
theorem c7_witness :
    (handle ccBase { envBase with containersResult := .ok containersBroken }).2 =
        Outcome.retOk ∧
      processExit ccBase { envBase with containersResult := .ok containersBroken } false = 0 ∧
      ((handle ccBase
          { envBase with containersResult := .ok containersBroken }).1.writeLog.map
            Prod.fst) =
        [Step.dumpInfo, Step.coreDump, Step.podInfo, Step.inspectPod, Step.psList,
         Step.logFile 0, Step.imageFile 0] :=
  c7_missing_image_ref_stops_loop ccBase { envBase with containersResult := .ok containersBroken }
    "pid1" "r0" containersBroken
    (Json.obj [("id", Json.str "c0"), ("imageRef", Json.str "r0")])
    (Json.obj [("id", Json.str "c1")])
    (Json.obj [("id", Json.str "c2"), ("imageRef", Json.str "r2")])
    rfl rfl rfl rfl rfl rfl rfl rfl rfl rfl rfl rfl rfl rfl rfl rfl rfl rfl rfl rfl rfl rfl
    rfl rfl rfl rfl
